import Mathlib

/-!
Shallow embedding of `weather-azmet` (src/main.go), an ingestion pipeline for
AZMET hourly weather CSV files, together with proofs of the specification
claims.

Modelling conventions:
* Go `int` is modelled as `Int` (with the `int64` range check of
  `strconv.Atoi` made explicit).
* Go `float32` values are modelled exactly: a parsed decimal is kept as a
  `Rat` (rounding to binary float32 precision is not modelled; no claim
  depends on rounded values), with the special values `Inf`/`NaN` that
  `strconv.ParseFloat` also accepts represented explicitly.
* `time.Time` instants are modelled as a count of wall-clock hours in the
  fixed `America/Phoenix` timezone since 1970-01-01 00:00 local time.
  Phoenix does not observe daylight-saving time, so `time.Date` followed by
  `Add` of whole 24-hour days is exactly day arithmetic on this
  representation.
* `time.LoadLocation` is an environment lookup; it is modelled by a boolean
  parameter `tzOk` saying whether the timezone database entry resolves.
* The HTTP client is an external collaborator; it is modelled as a function
  parameter from a URL to either a failure or the fetched body.  The body
  handed to `ReadHourlyData` is modelled after `encoding/csv` tokenisation
  as a list of records (lists of fields); the reader's uniform
  field-count rule (`FieldsPerRecord` is set from the first record and every
  later record must match it) is modelled explicitly in the read loop.
-/

namespace WeatherAzmet

/-! ## Calendar arithmetic

Standard civil-calendar conversions (proleptic Gregorian), used to state
what a given day offset from January 1 means as a calendar date.
`daysFromCivil y m d` is the number of days from 1970-01-01 to y-m-d. -/

def daysFromCivil (y m d : Int) : Int :=
  let y' := if m ≤ 2 then y - 1 else y
  let era := y'.fdiv 400
  let yoe := y' - era * 400
  let mp := (m + 9).emod 12
  let doy := (153 * mp + 2).fdiv 5 + d - 1
  let doe := yoe * 365 + yoe.fdiv 4 - yoe.fdiv 100 + doy
  era * 146097 + doe - 719468

/-- Inverse of `daysFromCivil`: the (year, month, day) of a day count. -/
def civilFromDays (z : Int) : Int × Int × Int :=
  let z' := z + 719468
  let era := z'.fdiv 146097
  let doe := z' - era * 146097
  let yoe := (doe - doe.fdiv 1460 + doe.fdiv 36524 - doe.fdiv 146096).fdiv 365
  let y := yoe + era * 400
  let doy := doe - (365 * yoe + yoe.fdiv 4 - yoe.fdiv 100)
  let mp := (5 * doy + 2).fdiv 153
  let d := doy - (153 * mp + 2).fdiv 5 + 1
  let m := mp + (if mp < 10 then 3 else -9)
  (if m ≤ 2 then y + 1 else y, m, d)

/-- An absolute instant, as wall-clock hours in the fixed DST-free
`America/Phoenix` timezone since 1970-01-01 00:00 local. -/
structure Instant where
  localHours : Int
  deriving DecidableEq, Repr, Inhabited

/-- The instant at hour `h` on the civil date y-m-d (Phoenix local). -/
def civilInstant (y m d h : Int) : Instant :=
  ⟨daysFromCivil y m d * 24 + h⟩

/-- The calendar year an instant falls in. -/
def yearOfInstant (t : Instant) : Int :=
  (civilFromDays (t.localHours.fdiv 24)).1

example : daysFromCivil 1970 1 1 = 0 := by decide
example : civilFromDays 0 = (1970, 1, 1) := by decide
example : daysFromCivil 2023 12 31 = daysFromCivil 2023 1 1 + 364 := by decide

/-! ## Numeric string parsing (`strconv`)

`goAtoi` models `strconv.Atoi`: an optional sign, then one or more ASCII
digits, nothing else; the value must fit in a 64-bit `int`.

`goParseFloat` models `strconv.ParseFloat(s, 32)` on its decimal forms:
optional sign, a mantissa of digits with at most one point (digits required
on at least one side), an optional `e`/`E` exponent, plus the
case-insensitive special spellings `Inf`, `Infinity` and `NaN`.
(Hexadecimal float literals, digit-group underscores and the float32
overflow-to-`Inf`-with-error behaviour of the Go function are not modelled;
no claim exercises them.) -/

def digitsVal (cs : List Char) : Nat :=
  cs.foldl (fun a c => a * 10 + (c.toNat - 48)) 0

def goAtoi (s : String) : Option Int :=
  let cs := s.toList
  match cs with
  | [] => none
  | c :: rest =>
    let neg := c = '-'
    let digits := if c = '-' ∨ c = '+' then rest else cs
    if digits ≠ [] ∧ digits.all Char.isDigit then
      let v : Int := if neg then -(digitsVal digits : Int) else (digitsVal digits : Int)
      if v < -(2 ^ 63) ∨ v > 2 ^ 63 - 1 then none else some v
    else none

/-- The value space of a parsed Go `float32`, with exact (unrounded)
finite values. -/
inductive GoFloat where
  | finite (q : Rat)
  | inf (neg : Bool)
  | nan
  deriving DecidableEq, Repr, Inhabited

/-- Parse an exponent part (what follows `e`/`E`): optional sign then one or
more digits. -/
def goParseExponent (cs : List Char) : Option Int :=
  match cs with
  | [] => none
  | c :: rest =>
    let eneg := c = '-'
    let edigits := if c = '-' ∨ c = '+' then rest else cs
    if edigits ≠ [] ∧ edigits.all Char.isDigit then
      some (if eneg then -(digitsVal edigits : Int) else (digitsVal edigits : Int))
    else none

/-- The exact rational value `(ipVal.fpVal) * 10^e` of a decimal literal with
integer digits `ip`, fraction digits `fp` and exponent `e`, built with
`mkRat` so that it evaluates by kernel reduction. -/
def decimalValue (ip fp : List Char) (e : Int) : Rat :=
  let num : Nat := digitsVal ip * 10 ^ fp.length + digitsVal fp
  let den : Nat := 10 ^ fp.length
  if 0 ≤ e then mkRat (num * 10 ^ e.toNat) den
  else mkRat num (den * 10 ^ (-e).toNat)

/-- Parse an unsigned decimal mantissa with optional exponent, e.g.
`12.5e-3`. -/
def goParseFloatCore (cs : List Char) : Option Rat :=
  let mant := cs.takeWhile (fun c => ¬(c = 'e' ∨ c = 'E'))
  let rest := cs.dropWhile (fun c => ¬(c = 'e' ∨ c = 'E'))
  let expOpt : Option Int :=
    match rest with
    | [] => some 0
    | _ :: es => goParseExponent es
  match expOpt with
  | none => none
  | some e =>
    let ip := mant.takeWhile (fun c => ¬c = '.')
    let fpRest := mant.dropWhile (fun c => ¬c = '.')
    match fpRest with
    | [] =>
      if ip ≠ [] ∧ ip.all Char.isDigit then some (decimalValue ip [] e)
      else none
    | _ :: fp =>
      if (ip ≠ [] ∨ fp ≠ []) ∧ ip.all Char.isDigit ∧ fp.all Char.isDigit then
        some (decimalValue ip fp e)
      else none

def goParseFloat (s : String) : Option GoFloat :=
  let lower := s.toList.map Char.toLower
  if lower = ['n', 'a', 'n'] then some .nan
  else if lower = ['i', 'n', 'f'] ∨ lower = "infinity".toList ∨
      lower = '+' :: "inf".toList ∨ lower = '+' :: "infinity".toList then
    some (.inf false)
  else if lower = '-' :: "inf".toList ∨ lower = '-' :: "infinity".toList then
    some (.inf true)
  else
    match s.toList with
    | [] => none
    | c :: rest =>
      let neg := c = '-'
      let body := if c = '-' ∨ c = '+' then rest else s.toList
      match goParseFloatCore body with
      | none => none
      | some q => some (.finite (if neg then -q else q))

example : goAtoi "2023" = some 2023 := by decide
example : goAtoi "-7" = some (-7) := by decide
example : goAtoi "+12" = some 12 := by decide
example : goAtoi "1.5" = none := by decide
example : goAtoi "" = none := by decide
example : goAtoi "12a" = none := by decide
example : goParseFloat "1.5" = some (.finite (mkRat 3 2)) := by decide
example : goParseFloat "-2" = some (.finite (mkRat (-2) 1)) := by decide
example : goParseFloat ".25" = some (.finite (mkRat 1 4)) := by decide
example : goParseFloat "3." = some (.finite (mkRat 3 1)) := by decide
example : goParseFloat "1e2" = some (.finite (mkRat 100 1)) := by decide
example : goParseFloat "2.5e-1" = some (.finite (mkRat 1 4)) := by decide
example : goParseFloat "abc" = none := by decide
example : goParseFloat "" = none := by decide
example : goParseFloat "1.2.3" = none := by decide
example : goParseFloat "Inf" = some (.inf false) := by decide
example : goParseFloat "nan" = some .nan := by decide

/-! ## Data model (`HourlyWeatherData`, `WeatherStation`) -/

/-- One hourly observation, mirroring the Go struct field for field.  The
first 18 fields are the decoded columns; `Time` is the derived timestamp
(Go zero `time.Time` is modelled as the zero `Instant`). -/
structure HourlyWeatherData where
  Year                 : Int := 0
  Day                  : Int := 0
  Hour                 : Int := 0
  AirTemperature       : GoFloat := .finite 0
  RelativeHumidity     : GoFloat := .finite 0
  VaporPressureDeficit : GoFloat := .finite 0
  SolarRadiation       : GoFloat := .finite 0
  Precipitation        : GoFloat := .finite 0
  SoilTempFourInches   : GoFloat := .finite 0
  SoilTempTwentyInches : GoFloat := .finite 0
  WindSpeedAverage     : GoFloat := .finite 0
  WindMagnitudeVector  : GoFloat := .finite 0
  WindDirectionVector  : GoFloat := .finite 0
  WindDirectionStdDev  : GoFloat := .finite 0
  WindSpeedMax         : GoFloat := .finite 0
  Evapotranspiration   : GoFloat := .finite 0
  VaporPressureActual  : GoFloat := .finite 0
  DewpointHourAverage  : GoFloat := .finite 0
  Time                 : Instant := ⟨0⟩
  deriving DecidableEq, Repr, Inhabited

/-- The station registry: each named station's fixed provider code. -/
def Aguila          : Int := 7
def Bonita          : Int := 9
def Bowie           : Int := 33
def Buckeye         : Int := 26
def Coolidge        : Int := 5
def DesertRidge     : Int := 27
def Harquahala      : Int := 23
def Maricopa        : Int := 6
def Mohave          : Int := 20
def Mohave2         : Int := 28
def FtMohave        : Int := 40
def Paloma          : Int := 19
def Parker          : Int := 8
def Parker2         : Int := 35
def Payson          : Int := 32
def PhoenixGreenway : Int := 12
def PhoenixEncanto  : Int := 15
def QueenCreek      : Int := 22
def Roll            : Int := 24
def Safford         : Int := 4
def Sahuarita       : Int := 38
def Salome          : Int := 41
def SanSimon        : Int := 37
def Tucson          : Int := 1
def Willcox         : Int := 39
def YumaNorth       : Int := 14
def YumaSouth       : Int := 36
def YumaValley      : Int := 2

/-! ## Failures

Every failure the pipeline can surface, one constructor per `Errorf` /
error source in the Go code (payloads carry what the Go message
interpolates). -/

inductive WeatherError where
  /-- reader-level failure (`encoding/csv` ErrFieldCount): a record's field
  count differs from the first record's. -/
  | fieldCount (expected got : Nat)
  /-- shape failure: "invalid field list length ... expecting 18 fields
  received `got`". -/
  | shape (got : Nat)
  /-- type failure: "unable to parse int type for value: `value`". -/
  | intType (value : String)
  /-- type failure: "unable to parse float32 type for value: `value`". -/
  | floatType (value : String)
  /-- environment failure: "unable to resolve timezone". -/
  | timezone
  /-- input-validation failure: "invalid year to fetch Phoenix weather
  data: `year`". -/
  | invalidYear (year : Int)
  /-- a transport failure surfaced by the HTTP client. -/
  | httpFailure (message : String)
  deriving DecidableEq, Repr

/-! ## Record decoder (`parseHourlyWeatherData`)

The Go function walks the struct's first 18 fields by reflection and
dispatches on each field's kind: the kind sequence of `HourlyWeatherData`
is 3 × `int` then 15 × `float32`, which the model states explicitly as
`hourlyWeatherKinds`. -/

inductive FieldKind where
  | int
  | float
  deriving DecidableEq, Repr, Inhabited

/-- The reflective kinds of the 18 decoded fields of `HourlyWeatherData`,
in declaration order. -/
def hourlyWeatherKinds : List FieldKind :=
  [.int, .int, .int] ++ List.replicate 15 .float

inductive GoValue where
  | vint (n : Int)
  | vfloat (x : GoFloat)
  deriving DecidableEq, Repr, Inhabited

def GoValue.asInt : GoValue → Int
  | .vint n => n
  | .vfloat _ => 0

def GoValue.asFloat : GoValue → GoFloat
  | .vfloat x => x
  | .vint _ => .finite 0

/-- One arm of the reflective `switch` on the field's kind. -/
def parseField (k : FieldKind) (s : String) : Except WeatherError GoValue :=
  match k with
  | .int =>
    match goAtoi s with
    | some n => .ok (.vint n)
    | none => .error (.intType s)
  | .float =>
    match goParseFloat s with
    | some x => .ok (.vfloat x)
    | none => .error (.floatType s)

/-- The `for i := 0; i < 18; i++` loop: parse each field under its kind,
left to right, stopping at the first failure. -/
def parseFieldsLoop : List FieldKind → List String → Except WeatherError (List GoValue)
  | [], _ => .ok []
  | k :: ks, s :: ss =>
    match parseField k s with
    | .error e => .error e
    | .ok v =>
      match parseFieldsLoop ks ss with
      | .error e => .error e
      | .ok vs => .ok (v :: vs)
  | _ :: _, [] => .ok []

/-- Rebuild the struct from the 18 parsed values, positionally. -/
def mkHourlyWeatherData (vs : List GoValue) : HourlyWeatherData :=
  { Year                 := (vs.getD 0 default).asInt
    Day                  := (vs.getD 1 default).asInt
    Hour                 := (vs.getD 2 default).asInt
    AirTemperature       := (vs.getD 3 default).asFloat
    RelativeHumidity     := (vs.getD 4 default).asFloat
    VaporPressureDeficit := (vs.getD 5 default).asFloat
    SolarRadiation       := (vs.getD 6 default).asFloat
    Precipitation        := (vs.getD 7 default).asFloat
    SoilTempFourInches   := (vs.getD 8 default).asFloat
    SoilTempTwentyInches := (vs.getD 9 default).asFloat
    WindSpeedAverage     := (vs.getD 10 default).asFloat
    WindMagnitudeVector  := (vs.getD 11 default).asFloat
    WindDirectionVector  := (vs.getD 12 default).asFloat
    WindDirectionStdDev  := (vs.getD 13 default).asFloat
    WindSpeedMax         := (vs.getD 14 default).asFloat
    Evapotranspiration   := (vs.getD 15 default).asFloat
    VaporPressureActual  := (vs.getD 16 default).asFloat
    DewpointHourAverage  := (vs.getD 17 default).asFloat
    Time                 := ⟨0⟩ }

/-- `parseHourlyWeatherData`: exactly-18-fields shape check, then the
reflective per-field parse loop. -/
def parseHourlyWeatherData (record : List String) : Except WeatherError HourlyWeatherData :=
  if record.length ≠ 18 then .error (.shape record.length)
  else (parseFieldsLoop hourlyWeatherKinds record).map mkHourlyWeatherData

/-! ## Timestamp resolver (`WeatherDataDate`)

The Go function loads `America/Phoenix` (an environment lookup, modelled by
the `tzOk` parameter), builds `time.Date(Year, 1, 1, Hour, 0, 0, 0, tz)`
and adds `24h * (Day - 1)`.  Phoenix has no daylight-saving shifts, so on
the local-hours representation this is exact day/hour arithmetic. -/

/-- The instant `time.Date(y, 1, 1, h, 0, 0, 0, phoenix).Add(24h * (d-1))`
computes. -/
def resolveInstant (y d h : Int) : Instant :=
  ⟨(daysFromCivil y 1 1 * 24 + h) + 24 * (d - 1)⟩

def WeatherDataDate (tzOk : Bool) (data : HourlyWeatherData) :
    Except WeatherError Instant :=
  if tzOk then .ok (resolveInstant data.Year data.Day data.Hour)
  else .error .timezone

/-! ## Dataset assembler (`ReadHourlyData`)

The Go loop reads CSV records one at a time.  The `encoding/csv` reader's
field-count rule is part of `Read`: the first record fixes the expected
count (`expected` starts as `none`) and any later record with a different
count makes `Read` return an error.  Each surviving record is decoded,
its timestamp resolved and attached, and the record appended; the first
failure of any kind aborts with an empty slice and that failure. -/

/-- Decode one record and attach its timestamp: the per-iteration body of
the Go loop after `r.Read()` (decode, resolve, set `Time`), with the same
first-failure passthrough as the two inline `if err != nil` checks. -/
def processRow (tzOk : Bool) (record : List String) :
    Except WeatherError HourlyWeatherData :=
  match parseHourlyWeatherData record with
  | .error e => .error e
  | .ok r =>
    match WeatherDataDate tzOk r with
    | .error e => .error e
    | .ok date => .ok { r with Time := date }

def readLoop (tzOk : Bool) (expected : Option Nat) (acc : List HourlyWeatherData) :
    List (List String) → List HourlyWeatherData × Option WeatherError
  | [] => (acc.reverse, none)
  | record :: rest =>
    if record.length ≠ expected.getD record.length then
      ([], some (.fieldCount (expected.getD record.length) record.length))
    else
      match processRow tzOk record with
      | .error e => ([], some e)
      | .ok r => readLoop tzOk (some (expected.getD record.length)) (r :: acc) rest

/-- `ReadHourlyData` over a CSV-tokenised body: returns the dataset and
`none`, or an empty dataset and the first failure (mirroring Go's
`([]HourlyWeatherData{}, err)`). -/
def ReadHourlyData (tzOk : Bool) (rows : List (List String)) :
    List HourlyWeatherData × Option WeatherError :=
  readLoop tzOk none [] rows

/-! ## Source locator and pipeline entry (`generateUrl`, `DownloadHourlyData`) -/

/-- `fmt.Sprintf("https://cals.arizona.edu/azmet/data/%d%srh.txt", station,
yearStr[len(yearStr)-2:])`: note the station code is substituted first and
the two-digit year suffix second. -/
def generateUrl (station : Int) (year : Int) : String :=
  let yearStr := toString year
  "https://cals.arizona.edu/azmet/data/" ++ toString station ++
    (yearStr.drop (yearStr.length - 2)) ++ "rh.txt"

/-- `DownloadHourlyData`: year window check, then one fetch of the
generated URL (the HTTP client is the external parameter `get`), then
`ReadHourlyData` on the body. -/
def DownloadHourlyData (get : String → Except WeatherError (List (List String)))
    (tzOk : Bool) (station : Int) (year : Int) :
    List HourlyWeatherData × Option WeatherError :=
  if year < 2003 ∨ year > 2099 then ([], some (.invalidYear year))
  else
    match get (generateUrl station year) with
    | .error e => ([], some e)
    | .ok rows => ReadHourlyData tzOk rows

example : generateUrl PhoenixGreenway 2024 =
    "https://cals.arizona.edu/azmet/data/1224rh.txt" := by decide

/-! ## Helper functions and sample data used in the statements -/

/-- The two-digit zero-padded residue `n` written in decimal, e.g.
`pad2 3 = "03"`, `pad2 24 = "24"`. -/
def pad2 (n : Int) : String :=
  if n < 10 then "0" ++ toString n else toString n

/-- The type error the reflective switch raises for kind `k` on input
`s`. -/
def typeErrorFor (k : FieldKind) (s : String) : WeatherError :=
  match k with
  | .int => .intType s
  | .float => .floatType s

/-- The record a successfully processed row yields. -/
def goodRecord (tzOk : Bool) (record : List String) : HourlyWeatherData :=
  (processRow tzOk record).toOption.getD default

/-- A well-formed 18-field sample row. -/
def sampleRow : List String :=
  ["2023", "1", "0", "10.5", "55", "1.2", "0", "0", "12.1", "14.2",
   "3.1", "2.9", "180", "12", "7.7", "0.02", "0.9", "4.4"]

/-- A second well-formed sample row (hour 1 of day 1). -/
def sampleRow2 : List String :=
  ["2023", "1", "1", "9.9", "57", "1.1", "0", "0", "12.0", "14.2",
   "2.8", "2.6", "175", "11", "6.9", "0.01", "0.9", "4.2"]

/-- A third well-formed sample row (duplicate of the first, to show
duplicates are preserved). -/
def sampleRow3 : List String := sampleRow

/-- An 18-field row whose fourth field is non-numeric text. -/
def badFloatRow : List String :=
  ["2023", "1", "0", "abc", "55", "1.2", "0", "0", "12.1", "14.2",
   "3.1", "2.9", "180", "12", "7.7", "0.02", "0.9", "4.4"]

/-- A 17-field row. -/
def shortRow : List String := List.replicate 17 "1"

/-- A fetch stub whose every response is an empty body. -/
def fetchEmpty : String → Except WeatherError (List (List String)) :=
  fun _ => .ok []

/-- A fetch stub whose every response is a transport failure. -/
def fetchFail : String → Except WeatherError (List (List String)) :=
  fun _ => .error (.httpFailure "connection refused")

/-! ## General lemmas -/

instance exceptDecEq {ε α : Type} [DecidableEq ε] [DecidableEq α] :
    DecidableEq (Except ε α) := fun x y =>
  match x, y with
  | .error e, .error f =>
    if h : e = f then .isTrue (congrArg Except.error h)
    else .isFalse (fun hc => h (Except.error.inj hc))
  | .ok a, .ok b =>
    if h : a = b then .isTrue (congrArg Except.ok h)
    else .isFalse (fun hc => h (Except.ok.inj hc))
  | .error _, .ok _ => .isFalse (fun hc => Except.noConfusion hc)
  | .ok _, .error _ => .isFalse (fun hc => Except.noConfusion hc)

lemma except_ok_of_isOk {ε α : Type} {x : Except ε α} (h : x.isOk = true) :
    ∃ v, x = .ok v := by
  cases x with
  | error e => simp [Except.isOk, Except.toBool] at h
  | ok v => exact ⟨v, rfl⟩

lemma parseField_error_of_not_isOk {k : FieldKind} {s : String}
    (h : (parseField k s).isOk = false) :
    parseField k s = .error (typeErrorFor k s) := by
  cases k with
  | int =>
    cases h' : goAtoi s with
    | none => simp [parseField, typeErrorFor, h']
    | some n => simp [parseField, h', Except.isOk, Except.toBool] at h
  | float =>
    cases h' : goParseFloat s with
    | none => simp [parseField, typeErrorFor, h']
    | some x => simp [parseField, h', Except.isOk, Except.toBool] at h

/-- The reflective parse loop stops at the first offending field, with that
field's type error. -/
lemma parseFieldsLoop_firstError :
    ∀ (i : Nat) (ks : List FieldKind) (ss : List String),
      i < ks.length → ks.length = ss.length →
      (∀ j, j < i → (parseField (ks.getD j .int) (ss.getD j "")).isOk = true) →
      (parseField (ks.getD i .int) (ss.getD i "")).isOk = false →
      parseFieldsLoop ks ss = .error (typeErrorFor (ks.getD i .int) (ss.getD i "")) := by
  intro i
  induction i with
  | zero =>
    intro ks ss hi hlen _ hbad
    match ks, ss with
    | [], _ => simp at hi
    | k :: ks', [] => simp at hlen
    | k :: ks', s :: ss' =>
      simp only [List.getD_cons_zero] at hbad ⊢
      rw [parseFieldsLoop, parseField_error_of_not_isOk hbad]
  | succ i ih =>
    intro ks ss hi hlen hok hbad
    match ks, ss with
    | [], _ => simp at hi
    | k :: ks', [] => simp at hlen
    | k :: ks', s :: ss' =>
      obtain ⟨v, hv⟩ := except_ok_of_isOk (hok 0 (Nat.succ_pos i))
      simp only [List.getD_cons_zero] at hv
      simp only [List.getD_cons_succ] at hok hbad ⊢
      rw [parseFieldsLoop, hv]
      have hrec := ih ks' ss' (by simpa using hi) (by simpa using hlen)
        (fun j hj => by simpa using hok (j + 1) (by omega)) hbad
      rw [hrec]

/-- C4: on an 18-field row whose first offending field is at index `i`
(integer designated for indices 0–2, decimal for 3–17), the decoder fails
with the type error for that field, carrying the offending field's text. -/
theorem claim_C4_type_error (record : List String) (i : Nat)
    (h18 : record.length = 18) (hi : i < 18)
    (hok : ∀ j, j < i →
      (parseField (hourlyWeatherKinds.getD j .int) (record.getD j "")).isOk = true)
    (hbad : (parseField (hourlyWeatherKinds.getD i .int) (record.getD i "")).isOk = false) :
    parseHourlyWeatherData record =
      .error (typeErrorFor (hourlyWeatherKinds.getD i .int) (record.getD i "")) := by
  have hkl : hourlyWeatherKinds.length = 18 := by decide
  have hloop := parseFieldsLoop_firstError i hourlyWeatherKinds record
    (by omega) (by omega) hok hbad
  simp [parseHourlyWeatherData, h18, hloop, Except.map]

theorem claim_C4_type_error_witness :
    parseHourlyWeatherData badFloatRow =
      .error (typeErrorFor (hourlyWeatherKinds.getD 3 .int) (badFloatRow.getD 3 "")) :=
  claim_C4_type_error badFloatRow 3 (by decide) (by decide)
    (by decide) (by decide)

/-- C5: a row whose field count is not 18 fails with the shape error
carrying that count; the error does not depend on any field's content, so
no type coercion is attempted. -/
theorem claim_C5_shape_error (record : List String) (h : record.length ≠ 18) :
    parseHourlyWeatherData record = .error (.shape record.length) := by
  simp [parseHourlyWeatherData, h]

theorem claim_C5_shape_error_witness :
    parseHourlyWeatherData shortRow = .error (.shape shortRow.length) :=
  claim_C5_shape_error shortRow (by decide)

/-- C7: on an 18-field row whose fields all parse under their designated
types (integers at positions 1–3, decimals at 4–18), the decoder returns
the record with each parsed value assigned to the struct field at the same
position, in declaration order. -/
theorem claim_C7_positional_mapping
    (s0 s1 s2 s3 s4 s5 s6 s7 s8 s9 s10 s11 s12 s13 s14 s15 s16 s17 : String)
    (yr dy hr : Int)
    (q3 q4 q5 q6 q7 q8 q9 q10 q11 q12 q13 q14 q15 q16 q17 : GoFloat)
    (h0 : goAtoi s0 = some yr) (h1 : goAtoi s1 = some dy) (h2 : goAtoi s2 = some hr)
    (h3 : goParseFloat s3 = some q3) (h4 : goParseFloat s4 = some q4)
    (h5 : goParseFloat s5 = some q5) (h6 : goParseFloat s6 = some q6)
    (h7 : goParseFloat s7 = some q7) (h8 : goParseFloat s8 = some q8)
    (h9 : goParseFloat s9 = some q9) (h10 : goParseFloat s10 = some q10)
    (h11 : goParseFloat s11 = some q11) (h12 : goParseFloat s12 = some q12)
    (h13 : goParseFloat s13 = some q13) (h14 : goParseFloat s14 = some q14)
    (h15 : goParseFloat s15 = some q15) (h16 : goParseFloat s16 = some q16)
    (h17 : goParseFloat s17 = some q17) :
    parseHourlyWeatherData
        [s0, s1, s2, s3, s4, s5, s6, s7, s8, s9, s10, s11, s12, s13, s14, s15, s16, s17] =
      .ok { Year := yr, Day := dy, Hour := hr
            AirTemperature := q3, RelativeHumidity := q4
            VaporPressureDeficit := q5, SolarRadiation := q6
            Precipitation := q7, SoilTempFourInches := q8
            SoilTempTwentyInches := q9, WindSpeedAverage := q10
            WindMagnitudeVector := q11, WindDirectionVector := q12
            WindDirectionStdDev := q13, WindSpeedMax := q14
            Evapotranspiration := q15, VaporPressureActual := q16
            DewpointHourAverage := q17, Time := ⟨0⟩ } := by
  have hk : hourlyWeatherKinds =
      [.int, .int, .int, .float, .float, .float, .float, .float, .float, .float,
       .float, .float, .float, .float, .float, .float, .float, .float] := by decide
  rw [parseHourlyWeatherData, if_neg (by simp), hk]
  simp only [parseFieldsLoop, parseField, h0, h1, h2, h3, h4, h5, h6, h7, h8, h9,
    h10, h11, h12, h13, h14, h15, h16, h17]
  rfl

theorem claim_C7_positional_mapping_witness :
    parseHourlyWeatherData sampleRow =
      .ok { Year := 2023, Day := 1, Hour := 0
            AirTemperature := .finite (mkRat 21 2), RelativeHumidity := .finite 55
            VaporPressureDeficit := .finite (mkRat 6 5), SolarRadiation := .finite 0
            Precipitation := .finite 0, SoilTempFourInches := .finite (mkRat 121 10)
            SoilTempTwentyInches := .finite (mkRat 71 5)
            WindSpeedAverage := .finite (mkRat 31 10)
            WindMagnitudeVector := .finite (mkRat 29 10)
            WindDirectionVector := .finite 180, WindDirectionStdDev := .finite 12
            WindSpeedMax := .finite (mkRat 77 10), Evapotranspiration := .finite (mkRat 1 50)
            VaporPressureActual := .finite (mkRat 9 10)
            DewpointHourAverage := .finite (mkRat 22 5), Time := ⟨0⟩ } :=
  claim_C7_positional_mapping
    "2023" "1" "0" "10.5" "55" "1.2" "0" "0" "12.1" "14.2"
    "3.1" "2.9" "180" "12" "7.7" "0.02" "0.9" "4.4"
    2023 1 0 _ _ _ _ _ _ _ _ _ _ _ _ _ _ _
    (by decide) (by decide) (by decide) (by decide) (by decide) (by decide)
    (by decide) (by decide) (by decide) (by decide) (by decide) (by decide)
    (by decide) (by decide) (by decide) (by decide) (by decide) (by decide)

/-- C3: resolve builds the instant at hour `hour` on January 1 of `year`
(Phoenix local, no DST) and advances it by `(dayOfYear - 1)` whole 24-hour
days; in particular resolve(2023, 1, 0) is local midnight January 1 2023,
resolve(2023, 365, 23) is 23:00 December 31 2023, and resolve(2024, 366, 0)
is local midnight December 31 2024 (leap year). -/
theorem claim_C3_resolve_day_offset :
    (∀ y d h : Int, resolveInstant y d h =
      ⟨(daysFromCivil y 1 1 * 24 + h) + 24 * (d - 1)⟩) ∧
    resolveInstant 2023 1 0 = civilInstant 2023 1 1 0 ∧
    resolveInstant 2023 365 23 = civilInstant 2023 12 31 23 ∧
    resolveInstant 2024 366 0 = civilInstant 2024 12 31 0 :=
  ⟨fun _ _ _ => rfl, by decide, by decide, by decide⟩

/-- C9 counterexample: dayOfYear = 0 is out of range (the valid range is
1–366), resolve succeeds on it, but the resulting instant falls in the
previous year (2022), not the following year (2024) — so "every
out-of-range value yields an instant in the following year" is false. -/
theorem claim_C9_counterexample :
    (WeatherDataDate true { Year := 2023, Day := 0, Hour := 12 }).isOk = true ∧
    yearOfInstant (resolveInstant 2023 0 12) = 2022 ∧
    ¬ yearOfInstant (resolveInstant 2023 0 12) = 2024 := by decide

/-- C9 (amended): resolve fails only when the timezone definition cannot be
loaded (and then with the timezone error); day-of-year is never
range-checked, so every out-of-range value silently succeeds, values past
the year's length rolling into the following year (367 in 365-day 2023
gives 2024) and values below 1 falling into the previous year (0 gives
2022). -/
theorem claim_C9_no_range_check :
    (∀ data, WeatherDataDate true data =
      .ok (resolveInstant data.Year data.Day data.Hour)) ∧
    (∀ data, WeatherDataDate false data = .error .timezone) ∧
    yearOfInstant (resolveInstant 2023 367 0) = 2024 ∧
    yearOfInstant (resolveInstant 2023 0 12) = 2022 :=
  ⟨fun _ => rfl, fun _ => rfl, by decide, by decide⟩

/-! ## C1: the source locator's address layout -/

lemma lastTwoDigits (k : Nat) (hk : k < 97) :
    (toString ((2003 : Int) + k)).drop ((toString ((2003 : Int) + k)).length - 2) =
      pad2 (((2003 : Int) + k) % 100) := by
  revert k
  decide

/-- C1 counterexample: for station 12 (PhoenixGreenway) and year 2024 the
generated address is `.../1224rh.txt` — the station code comes first — and
does not end in the claimed `2412rh.txt`. -/
theorem claim_C1_counterexample :
    generateUrl PhoenixGreenway 2024 = "https://cals.arizona.edu/azmet/data/1224rh.txt" ∧
    "2412rh.txt".toList.isSuffixOf (generateUrl PhoenixGreenway 2024).toList = false := by
  decide

/-- C1 (amended): for every station and every year in [2003, 2099] the
locator produces
`https://cals.arizona.edu/azmet/data/<stationCode><YY>rh.txt`, in which the
station's registered code comes immediately BEFORE the two-digit year
suffix (`year mod 100`, zero-padded); e.g. station 12, year 2024 yields an
address ending in `1224rh.txt`. -/
theorem claim_C1_url_layout (station year : Int)
    (hlo : 2003 ≤ year) (hhi : year ≤ 2099) :
    generateUrl station year =
      "https://cals.arizona.edu/azmet/data/" ++ toString station ++
        pad2 (year % 100) ++ "rh.txt" := by
  obtain ⟨k, hk, rfl⟩ : ∃ k : Nat, k < 97 ∧ year = (2003 : Int) + k :=
    ⟨(year - 2003).toNat, by omega, by omega⟩
  rw [generateUrl, lastTwoDigits k hk]

theorem claim_C1_url_layout_witness :
    generateUrl PhoenixGreenway 2024 =
      "https://cals.arizona.edu/azmet/data/" ++ toString PhoenixGreenway ++
        pad2 (2024 % 100) ++ "rh.txt" :=
  claim_C1_url_layout PhoenixGreenway 2024 (by decide) (by decide)

/-! ## Lemmas about the read loop -/

/-- Whenever the loop surfaces a failure, the returned dataset is empty. -/
lemma readLoop_error_empty :
    ∀ (rows : List (List String)) (tzOk : Bool) (expected : Option Nat)
      (acc : List HourlyWeatherData) (e : WeatherError),
      (readLoop tzOk expected acc rows).2 = some e →
      (readLoop tzOk expected acc rows).1 = [] := by
  intro rows
  induction rows with
  | nil =>
    intro tzOk expected acc e h
    simp [readLoop] at h
  | cons record rest ih =>
    intro tzOk expected acc e h
    by_cases hc : record.length ≠ expected.getD record.length
    · simp [readLoop, hc]
    · rw [readLoop, if_neg hc] at h ⊢
      cases hp : processRow tzOk record with
      | error e' => rfl
      | ok r =>
        rw [hp] at h
        exact ih _ _ _ _ h

/-- Consuming a run of rows that all match the expected count and process
successfully accumulates exactly their records. -/
lemma readLoop_good_run :
    ∀ (good : List (List String)) (tzOk : Bool) (n : Nat)
      (acc : List HourlyWeatherData) (rest : List (List String)),
      (∀ g ∈ good, g.length = n ∧ (processRow tzOk g).isOk = true) →
      readLoop tzOk (some n) acc (good ++ rest) =
        readLoop tzOk (some n) ((good.map (goodRecord tzOk)).reverse ++ acc) rest := by
  intro good
  induction good with
  | nil =>
    intro tzOk n acc rest _
    simp
  | cons g gs ih =>
    intro tzOk n acc rest h
    obtain ⟨hlen, hok⟩ := h g (List.mem_cons_self g gs)
    obtain ⟨r, hr⟩ := except_ok_of_isOk hok
    have hgr : goodRecord tzOk g = r := by
      simp [goodRecord, hr, Except.toOption]
    rw [List.cons_append, readLoop]
    simp only [Option.getD_some]
    rw [if_neg (by simp [hlen]), hr]
    show readLoop tzOk (some n) (r :: acc) (gs ++ rest) = _
    rw [ih tzOk n (r :: acc) rest (fun x hx => h x (List.mem_cons_of_mem _ hx))]
    congr 1
    simp [hgr, List.reverse_cons, List.append_assoc]

lemma parseField_error_eq {k : FieldKind} {s : String} {e : WeatherError}
    (h : parseField k s = .error e) : e = typeErrorFor k s := by
  cases k with
  | int =>
    cases h' : goAtoi s with
    | none => rw [parseField, h'] at h; injection h with h; simp [typeErrorFor, h]
    | some n => rw [parseField, h'] at h; injection h
  | float =>
    cases h' : goParseFloat s with
    | none => rw [parseField, h'] at h; injection h with h; simp [typeErrorFor, h]
    | some x => rw [parseField, h'] at h; injection h

/-- Every failure of the field parse loop is a type error. -/
lemma parseFieldsLoop_error_kind :
    ∀ (ks : List FieldKind) (ss : List String) (e : WeatherError),
      parseFieldsLoop ks ss = .error e →
      (∃ s, e = .intType s) ∨ (∃ s, e = .floatType s) := by
  intro ks
  induction ks with
  | nil =>
    intro ss e h
    simp [parseFieldsLoop] at h
  | cons k ks' ih =>
    intro ss e h
    cases ss with
    | nil => simp [parseFieldsLoop] at h
    | cons s ss' =>
      rw [parseFieldsLoop] at h
      cases hp : parseField k s with
      | error e' =>
        rw [hp] at h
        simp [Except.bind] at h
        subst h
        cases k with
        | int =>
          left
          exact ⟨s, by simpa [typeErrorFor] using parseField_error_eq hp⟩
        | float =>
          right
          exact ⟨s, by simpa [typeErrorFor] using parseField_error_eq hp⟩
      | ok v =>
        rw [hp] at h
        simp only [Except.bind] at h
        cases hq : parseFieldsLoop ks' ss' with
        | error e'' =>
          rw [hq] at h
          simp at h
          subst h
          exact ih ss' e'' hq
        | ok vs => rw [hq] at h; simp at h

/-- A shape failure of the decoder always carries the row's own field
count, and only arises when that count is not 18. -/
lemma parseHourlyWeatherData_shape {record : List String} {n : Nat}
    (h : parseHourlyWeatherData record = .error (.shape n)) :
    record.length = n ∧ n ≠ 18 := by
  by_cases hl : record.length = 18
  · rw [parseHourlyWeatherData, if_neg (by simp [hl])] at h
    cases hq : parseFieldsLoop hourlyWeatherKinds record with
    | error e =>
      rw [hq] at h
      simp [Except.map] at h
      rcases parseFieldsLoop_error_kind _ _ _ hq with ⟨s, hs⟩ | ⟨s, hs⟩ <;>
        simp [hs] at h
    | ok vs => rw [hq] at h; simp [Except.map] at h
  · rw [parseHourlyWeatherData, if_pos hl] at h
    injection h with h
    injection h with h
    exact ⟨h, by omega⟩

/-- A shape failure of `processRow` likewise only arises from a row whose
own count is not 18. -/
lemma processRow_shape {tzOk : Bool} {record : List String} {n : Nat}
    (h : processRow tzOk record = .error (.shape n)) :
    record.length = n ∧ n ≠ 18 := by
  rw [processRow] at h
  cases hp : parseHourlyWeatherData record with
  | error e =>
    rw [hp] at h
    simp [Except.bind] at h
    subst h
    exact parseHourlyWeatherData_shape hp
  | ok r =>
    rw [hp] at h
    simp only [Except.bind] at h
    cases hd : WeatherDataDate tzOk r with
    | error e =>
      rw [hd] at h
      simp at h
      rw [WeatherDataDate] at hd
      cases tzOk with
      | false => simp at hd; simp [← hd] at h
      | true => simp at hd
    | ok date => rw [hd] at h; simp at h

/-- Once the expected field count is pinned at 18, the loop can never
surface a shape failure: every later row either trips the reader-level
count check first or reaches the decoder with exactly 18 fields. -/
lemma readLoop_no_shape_after_first :
    ∀ (rows : List (List String)) (tzOk : Bool) (acc : List HourlyWeatherData) (n : Nat),
      (readLoop tzOk (some 18) acc rows).2 = some (.shape n) → False := by
  intro rows
  induction rows with
  | nil =>
    intro tzOk acc n h
    simp [readLoop] at h
  | cons record rest ih =>
    intro tzOk acc n h
    rw [readLoop] at h
    simp only [Option.getD_some] at h
    by_cases hc : record.length ≠ (18 : Nat)
    · rw [if_pos hc] at h
      simp at h
    · rw [if_neg hc] at h
      cases hp : processRow tzOk record with
      | error e =>
        rw [hp] at h
        simp at h
        subst h
        obtain ⟨h1, h2⟩ := processRow_shape hp
        omega
      | ok r =>
        rw [hp] at h
        exact ih tzOk (r :: acc) n h

/-- A successful decode implies the row had exactly 18 fields. -/
lemma parseHourlyWeatherData_ok_length {record : List String} {r : HourlyWeatherData}
    (h : parseHourlyWeatherData record = .ok r) : record.length = 18 := by
  by_cases hl : record.length = 18
  · exact hl
  · rw [parseHourlyWeatherData, if_pos hl] at h
    exact absurd h (by simp)

lemma processRow_ok_length {tzOk : Bool} {record : List String} {r : HourlyWeatherData}
    (h : processRow tzOk record = .ok r) : record.length = 18 := by
  rw [processRow] at h
  cases hp : parseHourlyWeatherData record with
  | error e => rw [hp] at h; exact absurd h (by simp)
  | ok r0 => exact parseHourlyWeatherData_ok_length hp

/-- With the timezone available, processing a decodable row succeeds and
recomputes `Time` from the decoded (Year, Day, Hour). -/
lemma processRow_true_eq {record : List String} {r : HourlyWeatherData}
    (hp : parseHourlyWeatherData record = .ok r) :
    processRow true record = .ok { r with Time := resolveInstant r.Year r.Day r.Hour } := by
  rw [processRow, hp]
  rfl

/-- Every record a successful `processRow` emits carries a timestamp that is
exactly `resolveInstant` of its own (Year, Day, Hour). -/
lemma processRow_ok_time {tzOk : Bool} {record : List String} {q : HourlyWeatherData}
    (h : processRow tzOk record = .ok q) :
    q.Time = resolveInstant q.Year q.Day q.Hour := by
  rw [processRow] at h
  cases hp : parseHourlyWeatherData record with
  | error e => rw [hp] at h; exact absurd h (by simp)
  | ok r =>
    rw [hp] at h
    cases tzOk with
    | false => simp only [WeatherDataDate] at h; simp at h
    | true =>
      simp only [WeatherDataDate, if_true, reduceIte] at h
      injection h with h
      subst h
      simp

/-- C2: the assembler is all-or-nothing: whenever it surfaces a failure,
the returned dataset is empty (no records from earlier rows), and on the
first failing row (all earlier rows having processed successfully) it
returns exactly that row's failure, never skipping the bad row. -/
theorem claim_C2_all_or_nothing :
    (∀ (tzOk : Bool) (rows : List (List String)) (e : WeatherError),
      (ReadHourlyData tzOk rows).2 = some e → (ReadHourlyData tzOk rows).1 = []) ∧
    (∀ (tzOk : Bool) (n : Nat) (good : List (List String)) (bad : List String)
        (rest : List (List String)) (e : WeatherError),
      (∀ g ∈ good, g.length = n ∧ (processRow tzOk g).isOk = true) →
      bad.length = n → processRow tzOk bad = .error e →
      ReadHourlyData tzOk (good ++ bad :: rest) = ([], some e)) := by
  constructor
  · intro tzOk rows e h
    exact readLoop_error_empty rows tzOk none [] e h
  · intro tzOk n good bad rest e hgood hbad hpe
    cases good with
    | nil =>
      rw [List.nil_append, ReadHourlyData, readLoop, if_neg (by simp), hpe]
    | cons g gs =>
      obtain ⟨hglen, hgok⟩ := hgood g (List.mem_cons_self g gs)
      obtain ⟨r, hr⟩ := except_ok_of_isOk hgok
      rw [List.cons_append, ReadHourlyData, readLoop, if_neg (by simp), hr, hglen]
      show readLoop tzOk (some n) [r] (gs ++ bad :: rest) = ([], some e)
      rw [readLoop_good_run gs tzOk n [r] (bad :: rest)
        (fun x hx => hgood x (List.mem_cons_of_mem _ hx))]
      rw [readLoop, if_neg (by simp [hbad]), hpe]

theorem claim_C2_all_or_nothing_witness :
    (ReadHourlyData true [shortRow]).1 = [] ∧
    ReadHourlyData true ([sampleRow] ++ badFloatRow :: []) =
      ([], some (.floatType "abc")) :=
  ⟨claim_C2_all_or_nothing.1 true [shortRow] (.shape 17) (by decide),
   claim_C2_all_or_nothing.2 true 18 [sampleRow] badFloatRow [] (.floatType "abc")
     (by decide) (by decide) (by decide)⟩

/-- C8: on a well-formed stream (every row 18 correctly typed fields) the
assembler succeeds with exactly one record per row, in input order with
duplicates preserved, and every record's timestamp is `resolveInstant` of
that record's own (Year, Day, Hour). -/
theorem claim_C8_well_formed_stream (rows : List (List String))
    (h : ∀ r ∈ rows, r.length = 18 ∧ (parseHourlyWeatherData r).isOk = true) :
    ReadHourlyData true rows = (rows.map (goodRecord true), none) ∧
    (ReadHourlyData true rows).1.length = rows.length ∧
    ∀ q ∈ (ReadHourlyData true rows).1,
      q.Time = resolveInstant q.Year q.Day q.Hour := by
  have hpr : ∀ r ∈ rows, r.length = 18 ∧ (processRow true r).isOk = true := by
    intro r hr
    obtain ⟨h1, h2⟩ := h r hr
    obtain ⟨r0, hr0⟩ := except_ok_of_isOk h2
    exact ⟨h1, by rw [processRow_true_eq hr0]; rfl⟩
  have hmain : ReadHourlyData true rows = (rows.map (goodRecord true), none) := by
    cases rows with
    | nil => rfl
    | cons r rest =>
      obtain ⟨h1, h2⟩ := hpr r (List.mem_cons_self r rest)
      obtain ⟨q, hq⟩ := except_ok_of_isOk h2
      rw [ReadHourlyData, readLoop, if_neg (by simp), hq, h1]
      show readLoop true (some 18) [q] rest = ((r :: rest).map (goodRecord true), none)
      have hrun := readLoop_good_run rest true 18 [q] []
        (fun x hx => hpr x (List.mem_cons_of_mem _ hx))
      rw [List.append_nil] at hrun
      rw [hrun, readLoop]
      have hqg : goodRecord true r = q := by
        simp [goodRecord, hq, Except.toOption]
      simp [List.reverse_append, hqg]
  refine ⟨hmain, ?_, ?_⟩
  · rw [hmain]
    simp
  · rw [hmain]
    intro q hq
    simp only [List.mem_map] at hq
    obtain ⟨g, hg, rfl⟩ := hq
    obtain ⟨_, h2⟩ := hpr g hg
    obtain ⟨q0, hq0⟩ := except_ok_of_isOk h2
    have hgq : goodRecord true g = q0 := by
      simp [goodRecord, hq0, Except.toOption]
    rw [hgq]
    exact processRow_ok_time hq0

theorem claim_C8_well_formed_stream_witness :
    ReadHourlyData true [sampleRow, sampleRow2, sampleRow3] =
      ([sampleRow, sampleRow2, sampleRow3].map (goodRecord true), none) ∧
    (ReadHourlyData true [sampleRow, sampleRow2, sampleRow3]).1.length =
      ([sampleRow, sampleRow2, sampleRow3] : List (List String)).length ∧
    ∀ q ∈ (ReadHourlyData true [sampleRow, sampleRow2, sampleRow3]).1,
      q.Time = resolveInstant q.Year q.Day q.Hour :=
  claim_C8_well_formed_stream [sampleRow, sampleRow2, sampleRow3] (by decide)

/-- C10 counterexample: in the stream [17-field row, 18-field row] the
rows do NOT uniformly have a count other than 18, yet the decoder's shape
error is exactly what the assembler returns (it fires on the first row
before the second is ever read) — refuting "the decoder's shape error can
only fire when all rows uniformly have a count other than 18". -/
theorem claim_C10_counterexample :
    (ReadHourlyData true [shortRow, sampleRow]).2 = some (.shape 17) ∧
    ¬(∀ r ∈ ([shortRow, sampleRow] : List (List String)), r.length ≠ 18) := by
  decide

/-- C10 (amended): the reader requires every row to have the first row's
field count: when the rows before some row all process successfully and
that row's count differs from the first row's, the assembler fails with the
reader-level field-count error, before the decoder sees the row; and the
decoder's shape error can only be surfaced by the first row, when its own
count is not 18. -/
theorem claim_C10_uniform_field_count :
    (∀ (tzOk : Bool) (n : Nat) (good : List (List String)) (row : List String)
        (rest : List (List String)),
      good ≠ [] →
      (∀ g ∈ good, g.length = n ∧ (processRow tzOk g).isOk = true) →
      row.length ≠ n →
      ReadHourlyData tzOk (good ++ row :: rest) =
        ([], some (.fieldCount n row.length))) ∧
    (∀ (tzOk : Bool) (rows : List (List String)) (n : Nat),
      (ReadHourlyData tzOk rows).2 = some (.shape n) →
      (rows.headD []).length = n ∧ n ≠ 18) := by
  constructor
  · intro tzOk n good row rest hne hgood hrow
    cases good with
    | nil => exact absurd rfl hne
    | cons g gs =>
      obtain ⟨hglen, hgok⟩ := hgood g (List.mem_cons_self g gs)
      obtain ⟨r, hr⟩ := except_ok_of_isOk hgok
      rw [List.cons_append, ReadHourlyData, readLoop, if_neg (by simp), hr, hglen]
      show readLoop tzOk (some n) [r] (gs ++ row :: rest) =
        ([], some (.fieldCount n row.length))
      rw [readLoop_good_run gs tzOk n [r] (row :: rest)
        (fun x hx => hgood x (List.mem_cons_of_mem _ hx))]
      rw [readLoop, if_pos (by simpa using hrow)]
      rfl
  · intro tzOk rows n h
    cases rows with
    | nil => simp [ReadHourlyData, readLoop] at h
    | cons record rest =>
      rw [ReadHourlyData, readLoop, if_neg (by simp)] at h
      simp only [Option.getD_none] at h
      cases hp : processRow tzOk record with
      | error e =>
        rw [hp] at h
        simp at h
        subst h
        obtain ⟨h1, h2⟩ := processRow_shape hp
        exact ⟨by simpa using h1, h2⟩
      | ok r =>
        rw [hp] at h
        rw [processRow_ok_length hp] at h
        exact absurd h (by exact fun hh =>
          readLoop_no_shape_after_first rest tzOk [r] n hh)

theorem claim_C10_uniform_field_count_witness :
    ReadHourlyData true ([sampleRow] ++ shortRow :: []) =
      ([], some (.fieldCount 18 17)) ∧
    ((([shortRow] : List (List String)).headD []).length = 17 ∧ (17 : Nat) ≠ 18) := by
  refine ⟨?_, ?_⟩
  · exact claim_C10_uniform_field_count.1 true 18 [sampleRow] shortRow []
      (by decide) (by decide) (by decide)
  · exact claim_C10_uniform_field_count.2 true [shortRow] 17 (by decide)

/-- C6: the pipeline entry point rejects every year outside [2003, 2099]
with the input-validation failure, without consulting the fetch capability
at all (the result is the same for every fetch function); for every year in
the window it proceeds to build the address and attempt the fetch of
exactly that address. -/
theorem claim_C6_year_window :
    (∀ (get get' : String → Except WeatherError (List (List String)))
        (tzOk : Bool) (station year : Int),
      year < 2003 ∨ year > 2099 →
      DownloadHourlyData get tzOk station year = ([], some (.invalidYear year)) ∧
      DownloadHourlyData get tzOk station year =
        DownloadHourlyData get' tzOk station year) ∧
    (∀ (get : String → Except WeatherError (List (List String)))
        (tzOk : Bool) (station year : Int),
      2003 ≤ year → year ≤ 2099 →
      DownloadHourlyData get tzOk station year =
        match get (generateUrl station year) with
        | .error e => ([], some e)
        | .ok rows => ReadHourlyData tzOk rows) := by
  constructor
  · intro get get' tzOk station year hy
    constructor
    · rw [DownloadHourlyData, if_pos hy]
    · rw [DownloadHourlyData, if_pos hy, DownloadHourlyData, if_pos hy]
  · intro get tzOk station year hlo hhi
    rw [DownloadHourlyData, if_neg (by omega)]

theorem claim_C6_year_window_witness :
    DownloadHourlyData fetchEmpty true PhoenixGreenway 2100 =
      ([], some (.invalidYear 2100)) ∧
    DownloadHourlyData fetchEmpty true PhoenixGreenway 2100 =
      DownloadHourlyData fetchFail true PhoenixGreenway 2100 ∧
    DownloadHourlyData fetchEmpty true PhoenixGreenway 2024 =
      match fetchEmpty (generateUrl PhoenixGreenway 2024) with
      | .error e => ([], some e)
      | .ok rows => ReadHourlyData true rows := by
  refine ⟨?_, ?_, ?_⟩
  · exact (claim_C6_year_window.1 fetchEmpty fetchFail true PhoenixGreenway 2100
      (by decide)).1
  · exact (claim_C6_year_window.1 fetchEmpty fetchFail true PhoenixGreenway 2100
      (by decide)).2
  · exact claim_C6_year_window.2 fetchEmpty true PhoenixGreenway 2024
      (by decide) (by decide)

end WeatherAzmet
